import Mathlib

/-!
Shallow embedding of the mgreg-bot task lifecycle reconciliation engine.

Each Python source function that the verified properties touch is translated
into an executable Lean definition:

* pure helpers (phone normalization, webhook field extraction, error
  classification) become pure Lean functions over character lists and a small
  JSON value type;
* stateful handlers (accept/decline callbacks, the reconciliation job, the
  form-submission handler, the deadline job) become explicit state-passing
  functions from a Store value to a new Store value plus a list of emitted
  side effects (CRM calls, chat messages);
* CRM HTTP responses are injected as parameters, so both the healthy path and
  every error path of the handlers can be examined.

Text is modelled as List Char; SQL rows as structures; SQL statements as the
corresponding list transformations on the row lists.
-/

namespace Mgreg

/-! ## Phone validation (bot/services/validators.py) -/

/-- Embedding of PHONE_CLEAN_PATTERN.sub("", raw): regex \D+ removes every
non-digit character, keeping the digits in order. -/
def cleanDigits (raw : List Char) : List Char :=
  raw.filter Char.isDigit

/-- Embedding of PHONE_VALID_PATTERN.fullmatch with pattern
^\+?[1-9]\d\x7b7,14\x7d$ : an optional leading plus sign, a first digit in
1..9, then 7 to 14 further digits. -/
def validPhoneCore (s : List Char) : Bool :=
  match s with
  | [] => false
  | c :: ds =>
      ('1' ≤ c && c ≤ '9') && ds.all Char.isDigit &&
        (7 ≤ ds.length && ds.length ≤ 14)

/-- Full-match of the phone validation pattern, including the optional
leading plus sign. -/
def validPhone (s : List Char) : Bool :=
  match s with
  | '+' :: rest => validPhoneCore rest
  | other => validPhoneCore other

/-- Validation failures of normalize_phone, standing for the two
ValidationException messages the source raises. -/
inductive PhoneErr
  | emptyInput
  | malformed
  deriving Repr, DecidableEq

/-- Line "if digits.startswith(8) and len(digits) == 11: digits = 7 + digits[1:]"
of normalize_phone: a national 8-prefixed 11-digit number is rewritten to a
7-prefixed one. -/
def phoneDigitsRu (d0 : List Char) : List Char :=
  if d0.head? == some '8' && d0.length == 11 then '7' :: d0.tail else d0

/-- The if/elif chain of normalize_phone that prepends the plus sign: kept
branch for branch as in the source (the last guard compares the pure digit
string against a leading plus). -/
def phonePlus (raw d1 : List Char) : List Char :=
  if d1.head? == some '7' && d1.length == 11 then '+' :: d1
  else if raw.head? == some '+' then '+' :: d1
  else if !(d1.head? == some '+') then '+' :: d1
  else d1

/-- Embedding of normalize_phone from bot/services/validators.py: reject the
empty input, strip non-digits, rewrite a leading national 8, prepend the
plus sign, and validate against the full-match pattern. -/
def normalize_phone (raw : List Char) : Except PhoneErr (List Char) :=
  if raw.isEmpty then
    .error .emptyInput
  else
    if validPhone (phonePlus raw (phoneDigitsRu (cleanDigits raw))) then
      .ok (phonePlus raw (phoneDigitsRu (cleanDigits raw)))
    else
      .error .malformed

/-! ## CRM client (bot/services/planfix.py) -/

/-- Substring test over character lists, used to embed the Python
"needle in haystack" checks. -/
def containsSub (needle hay : List Char) : Bool :=
  match hay with
  | [] => needle.isEmpty
  | _ :: t => needle.isPrefixOf hay || containsSub needle t

/-- Embedding of the PlanfixError exception: the typed error surfaced by the
CRM client, carrying the HTTP status code and the raw response body.  The
human-readable message attribute is not modelled. -/
structure PlanfixError where
  status_code : Nat
  body : List Char
  deriving Repr, DecidableEq

/-- Embedding of PlanfixError.is_task_not_found: a status of exactly 400
whose lowercased body mentions a not-found text or the Planfix error code
1000. -/
def PlanfixError.is_task_not_found (e : PlanfixError) : Bool :=
  if e.status_code == 400 then
    let bodyLower := e.body.map Char.toLower
    containsSub "not found".toList bodyLower ||
      containsSub "\"code\":1000".toList bodyLower ||
      containsSub "\"code\": 1000".toList bodyLower
  else
    false

/-- One network-level attempt by the underlying HTTP client: either a
transport failure (httpx.RequestError) or a response with a status code and
a body. -/
inductive HttpAttempt
  | netError
  | resp (status : Nat) (body : List Char)
  deriving Repr, DecidableEq

/-- The Authorization header value attached to every attempt:
"Bearer" followed by the configured token. -/
def requestAuthHeader (token : List Char) : List Char :=
  "Bearer ".toList ++ token

/-- One HTTP request as actually sent, recording the attached auth header. -/
structure SentRequest where
  authorization : List Char
  deriving Repr, DecidableEq

/-- How one call of PlanfixClient._request ends: a parsed successful body, a
typed PlanfixError, or a transport error surfacing after the retries. -/
inductive ReqOutcome
  | success (body : List Char)
  | planfixFailure (e : PlanfixError)
  | networkFailure
  deriving Repr, DecidableEq

/-- Full trace of one _request call: the requests sent (one per attempt), the
sleeps between attempts, and the final outcome. -/
structure ReqTrace where
  sent : List SentRequest
  waits : List Nat
  outcome : ReqOutcome
  deriving Repr, DecidableEq

/-- Embedding of wait_exponential(multiplier=1, min=1, max=8): the sleep
after the n-th failed attempt, doubling from a one-second base and capped at
eight seconds. -/
def backoffWait (attempt : Nat) : Nat :=
  min 8 (max 1 (2 ^ (attempt - 1)))

/-- The AsyncRetrying loop of PlanfixClient._request, with
stop_after_attempt(3) modelled as fuel.  attempt n: send the request with
bearer auth; a transport error or any raised PlanfixError (a 5xx response
raises one, and so does a 4xx response — both exception types are listed in
retry_if_exception_type) is retried until the attempts are exhausted and then
re-raised; a status below 400 returns the body. -/
def planfixRequestGo (token : List Char) (responses : Nat → HttpAttempt) :
    Nat → Nat → ReqTrace
  | _, 0 => ⟨[], [], .networkFailure⟩
  | n, fuel + 1 =>
    let req : SentRequest := ⟨requestAuthHeader token⟩
    let retryOrRaise : ReqOutcome → ReqTrace := fun f =>
      if fuel == 0 then ⟨[req], [], f⟩
      else
        let t := planfixRequestGo token responses (n + 1) fuel
        ⟨req :: t.sent, backoffWait n :: t.waits, t.outcome⟩
    match responses n with
    | .netError => retryOrRaise .networkFailure
    | .resp s b =>
        if 500 ≤ s then retryOrRaise (.planfixFailure ⟨s, b⟩)
        else if 400 ≤ s then retryOrRaise (.planfixFailure ⟨s, b⟩)
        else ⟨[req], [], .success b⟩

/-- Embedding of PlanfixClient._request: up to three attempts, starting from
attempt number one. -/
def planfix_request (token : List Char) (responses : Nat → HttpAttempt) :
    ReqTrace :=
  planfixRequestGo token responses 1 3

/-! Lemmas about the phone pipeline. -/

lemma cleanDigits_all (raw : List Char) : (cleanDigits raw).all Char.isDigit = true := by
  simp only [cleanDigits, List.all_eq_true, List.mem_filter]
  intro a ha
  exact ha.2

lemma filter_eq_self_of_all (d : List Char) (h : d.all Char.isDigit = true) :
    d.filter Char.isDigit = d := by
  rw [List.filter_eq_self]
  intro a ha
  exact (List.all_eq_true.mp h) a ha

lemma tail_all (d : List Char) (h : d.all Char.isDigit = true) :
    d.tail.all Char.isDigit = true := by
  cases d with
  | nil => rfl
  | cons c t => simp only [List.all_cons, Bool.and_eq_true] at h; exact h.2

lemma head_not_plus_of_all (d : List Char) (h : d.all Char.isDigit = true) :
    (d.head? == some '+') = false := by
  cases d with
  | nil => rfl
  | cons c t =>
      simp only [List.all_cons, Bool.and_eq_true] at h
      simp only [List.head?_cons]
      cases hc : (some c == some '+') with
      | false => rfl
      | true =>
          have : c = '+' := by simpa using hc
          subst this
          exact absurd h.1 (by decide)

lemma phoneDigitsRu_all (d0 : List Char) (h : d0.all Char.isDigit = true) :
    (phoneDigitsRu d0).all Char.isDigit = true := by
  rw [phoneDigitsRu]
  split
  · simp only [List.all_cons, Bool.and_eq_true]
    exact ⟨by decide, tail_all d0 h⟩
  · exact h

lemma phoneDigitsRu_not8 (d0 : List Char) :
    ((phoneDigitsRu d0).head? == some '8' && (phoneDigitsRu d0).length == 11) = false := by
  rw [phoneDigitsRu]
  by_cases hg : (d0.head? == some '8' && d0.length == 11) = true
  · simp [hg]
  · simp only [Bool.not_eq_true] at hg
    simp [hg]

lemma phonePlus_eq (raw d1 : List Char) (h : d1.all Char.isDigit = true) :
    phonePlus raw d1 = '+' :: d1 := by
  rw [phonePlus]
  have hplus := head_not_plus_of_all d1 h
  by_cases hg1 : (d1.head? == some '7' && d1.length == 11) = true
  · simp [hg1]
  · simp only [Bool.not_eq_true] at hg1
    by_cases hg2 : (raw.head? == some '+') = true
    · simp [hg1, hg2]
    · simp only [Bool.not_eq_true] at hg2
      simp [hg1, hg2, hplus]

/-- Every successful result of normalize_phone is a plus sign followed by a
digit string that can no longer trigger the national-8 rewrite, and it passes
the validation pattern. -/
lemma normalize_ok_shape (raw r : List Char) (h : normalize_phone raw = .ok r) :
    ∃ d, r = '+' :: d ∧ d.all Char.isDigit = true ∧
      (d.head? == some '8' && d.length == 11) = false ∧
      validPhone ('+' :: d) = true := by
  rw [normalize_phone] at h
  split at h
  · cases h
  · have hall : (phoneDigitsRu (cleanDigits raw)).all Char.isDigit = true :=
      phoneDigitsRu_all _ (cleanDigits_all raw)
    rw [phonePlus_eq raw _ hall] at h
    split at h
    · rename_i hv
      cases h
      exact ⟨phoneDigitsRu (cleanDigits raw), rfl, hall, phoneDigitsRu_not8 _, hv⟩
    · cases h

/-- Normalization is idempotent: re-normalizing any successful output
reproduces it unchanged. -/
lemma normalize_phone_idem (raw r : List Char) (h : normalize_phone raw = .ok r) :
    normalize_phone r = .ok r := by
  obtain ⟨d, rfl, hall, hnot8, hv⟩ := normalize_ok_shape raw r h
  rw [normalize_phone]
  have hclean : cleanDigits ('+' :: d) = d := by
    rw [cleanDigits, List.filter_cons]
    simp only [show ('+').isDigit = false from rfl, if_false, Bool.false_eq_true]
    exact filter_eq_self_of_all d hall
  have hru : phoneDigitsRu d = d := by
    rw [phoneDigitsRu, if_neg]
    simp [hnot8]
  rw [show (('+' :: d).isEmpty) = false from rfl]
  simp only [Bool.false_eq_true, if_false]
  rw [hclean, hru, phonePlus_eq _ _ hall, if_pos hv]

/-- Claim C9: for every valid phone string in the supported formats
(for example the three sample formats of the spec), normalize_phone returns a
plus-prefixed digit string and is idempotent; for invalid inputs (empty, too
short, malformed) it raises a validation failure. -/
theorem claim_C9_normalize_phone :
    (∀ raw r, normalize_phone raw = .ok r →
        r.head? = some '+' ∧ r.tail.all Char.isDigit = true ∧
        normalize_phone r = .ok r) ∧
    normalize_phone "+7 926 000 00 00".toList = .ok "+79260000000".toList ∧
    normalize_phone "8 926 000 00 00".toList = .ok "+79260000000".toList ∧
    normalize_phone "+1-202-555-0100".toList = .ok "+12025550100".toList ∧
    normalize_phone "".toList = .error .emptyInput ∧
    normalize_phone "+7 926".toList = .error .malformed ∧
    normalize_phone "abc".toList = .error .malformed := by
  refine ⟨?_, by rfl, by rfl, by rfl, by rfl, by rfl, by rfl⟩
  intro raw r h
  obtain ⟨d, rfl, hall, _, _⟩ := normalize_ok_shape raw r h
  exact ⟨rfl, hall, normalize_phone_idem raw _ h⟩

/-- Witness for claim C9 at a concrete input: the already-canonical number is
a fixed point of normalization. -/
theorem claim_C9_normalize_phone_witness :
    normalize_phone "+79260000000".toList = .ok "+79260000000".toList :=
  (claim_C9_normalize_phone.1 "+79260000000".toList "+79260000000".toList
      (by rfl)).2.2

/-- Claim C4 evaluation: for every CRM call through PlanfixClient._request,
bearer auth is attached to each attempt, network failures and 5xx responses
are retried up to three attempts with exponential backoff of base one second
capped at eight, a 4xx error surfaces as a typed error carrying status code
and raw body with NotFound distinguishable — but, contrary to the claim, a
4xx response is also retried: a server answering 404 on every attempt
receives three requests, not one, because the retry predicate
retry_if_exception_type covers every PlanfixError, 4xx ones included. -/
theorem claim_C4_request_retry_behaviour :
    planfix_request "tok".toList (fun _ => .resp 500 "boom".toList) =
      ⟨List.replicate 3 ⟨"Bearer tok".toList⟩, [1, 2],
        .planfixFailure ⟨500, "boom".toList⟩⟩ ∧
    planfix_request "tok".toList (fun _ => .netError) =
      ⟨List.replicate 3 ⟨"Bearer tok".toList⟩, [1, 2], .networkFailure⟩ ∧
    planfix_request "tok".toList
        (fun n => if n == 1 then .resp 502 "x".toList else .resp 200 "ok".toList) =
      ⟨List.replicate 2 ⟨"Bearer tok".toList⟩, [1], .success "ok".toList⟩ ∧
    (PlanfixError.mk 400 "Task Not Found".toList).is_task_not_found = true ∧
    (PlanfixError.mk 404 "not found".toList).is_task_not_found = false ∧
    planfix_request "tok".toList (fun _ => .resp 404 "oops".toList) =
      ⟨List.replicate 3 ⟨"Bearer tok".toList⟩, [1, 2],
        .planfixFailure ⟨404, "oops".toList⟩⟩ :=
  ⟨rfl, rfl, rfl, rfl, rfl, rfl⟩

/-! ## Event normalizer (bot/webhook_server.py) -/

/-- JSON-like values carried by webhook bodies.  Parsed Python None and JSON
null are both jnull; objects are association lists in field order. -/
inductive JVal
  | jnull
  | jstr (s : List Char)
  | jnum (n : Int)
  | jbool (b : Bool)
  | jobj (fields : List (List Char × JVal))

/-- First binding of a key inside an object; none on any other shape. -/
def JVal.lookup (v : JVal) (k : List Char) : Option JVal :=
  match v with
  | .jobj fields =>
      match fields.find? (fun p => p.1 == k) with
      | some p => some p.2
      | none => none
  | _ => none

/-- Python truthiness of a JSON value: None, empty strings, zero and empty
objects are falsy. -/
def JVal.truthy (v : JVal) : Bool :=
  match v with
  | .jnull => false
  | .jstr s => !s.isEmpty
  | .jnum n => n != 0
  | .jbool b => b
  | .jobj fields => !fields.isEmpty

/-- Python dict.get(k): the stored value, or None when the key is absent. -/
def pyGet (v : JVal) (k : List Char) : JVal :=
  (v.lookup k).getD .jnull

/-- Python dict.get(k, default). -/
def pyGetD (v : JVal) (k : List Char) (dflt : JVal) : JVal :=
  (v.lookup k).getD dflt

/-- Python "a or b": a when truthy, else b. -/
def pyOr (a b : JVal) : JVal :=
  if a.truthy then a else b

/-- Embedding of get_task_number_from_webhook: the or-chain
data.get(nomber) or data.get(task, empty).get(nomber) or data.get(taskId)
or data.get(task, empty).get(id). -/
def get_task_number_from_webhook (data : JVal) : JVal :=
  pyOr (pyGet data "nomber".toList)
    (pyOr (pyGet (pyGetD data "task".toList (.jobj [])) "nomber".toList)
      (pyOr (pyGet data "taskId".toList)
        (pyGet (pyGetD data "task".toList (.jobj [])) "id".toList)))

/-- The guard of planfix_webhook after extraction: the event kind and the
task reference must both be truthy, otherwise the body is answered with a
benign missing-fields acknowledgement and no handler runs. -/
def webhookAccepted (data : JVal) : Option (JVal × JVal) :=
  let event := pyGet data "event".toList
  let taskNumber := get_task_number_from_webhook data
  if !event.truthy || !taskNumber.truthy then none
  else some (event, taskNumber)

/-- Webhook body with a root-level nomber field that is present but empty,
next to a numeric taskId. -/
def c6Body : JVal :=
  .jobj [("nomber".toList, .jstr "".toList), ("taskId".toList, .jnum 7)]

/-- Claim C6 counterexample: the claim says the normalizer returns the
root-level nomber field if present; on a body whose nomber field is present
but empty the or-chain skips it and returns the numeric taskId instead. -/
theorem claim_C6_counterexample :
    c6Body.lookup "nomber".toList = some (.jstr "".toList) ∧
    get_task_number_from_webhook c6Body = .jnum 7 ∧
    get_task_number_from_webhook c6Body ≠ .jstr "".toList :=
  ⟨rfl, rfl, fun h => by cases h⟩

/-- Claim C6 as amended: the canonical task reference is the first truthy
value among root nomber, task.nomber, root taskId and task.id (presence
alone does not count: falsy values such as empty strings, zero or null are
skipped), and when none of the four is truthy the extractor yields a falsy
reference and the webhook handler discards the event. -/
theorem claim_C6_task_number_precedence :
    ∀ data : JVal,
      ((pyGet data "nomber".toList).truthy = true →
        get_task_number_from_webhook data = pyGet data "nomber".toList) ∧
      ((pyGet data "nomber".toList).truthy = false →
        (pyGet (pyGetD data "task".toList (.jobj [])) "nomber".toList).truthy = true →
        get_task_number_from_webhook data =
          pyGet (pyGetD data "task".toList (.jobj [])) "nomber".toList) ∧
      ((pyGet data "nomber".toList).truthy = false →
        (pyGet (pyGetD data "task".toList (.jobj [])) "nomber".toList).truthy = false →
        (pyGet data "taskId".toList).truthy = true →
        get_task_number_from_webhook data = pyGet data "taskId".toList) ∧
      ((pyGet data "nomber".toList).truthy = false →
        (pyGet (pyGetD data "task".toList (.jobj [])) "nomber".toList).truthy = false →
        (pyGet data "taskId".toList).truthy = false →
        get_task_number_from_webhook data =
          pyGet (pyGetD data "task".toList (.jobj [])) "id".toList) ∧
      ((pyGet data "nomber".toList).truthy = false →
        (pyGet (pyGetD data "task".toList (.jobj [])) "nomber".toList).truthy = false →
        (pyGet data "taskId".toList).truthy = false →
        (pyGet (pyGetD data "task".toList (.jobj [])) "id".toList).truthy = false →
        (get_task_number_from_webhook data).truthy = false ∧
          webhookAccepted data = none) := by
  intro data
  refine ⟨?_, ?_, ?_, ?_, ?_⟩
  · intro h1
    unfold get_task_number_from_webhook pyOr
    rw [if_pos h1]
  · intro h1 h2
    unfold get_task_number_from_webhook pyOr
    rw [if_neg (by rw [h1]; decide), if_pos h2]
  · intro h1 h2 h3
    unfold get_task_number_from_webhook pyOr
    rw [if_neg (by rw [h1]; decide), if_neg (by rw [h2]; decide), if_pos h3]
  · intro h1 h2 h3
    unfold get_task_number_from_webhook pyOr
    rw [if_neg (by rw [h1]; decide), if_neg (by rw [h2]; decide),
      if_neg (by rw [h3]; decide)]
  · intro h1 h2 h3 h4
    have hg : (get_task_number_from_webhook data).truthy = false := by
      unfold get_task_number_from_webhook pyOr
      rw [if_neg (by rw [h1]; decide), if_neg (by rw [h2]; decide),
        if_neg (by rw [h3]; decide)]
      exact h4
    refine ⟨hg, ?_⟩
    unfold webhookAccepted
    simp [hg]

/-- Witness for claim C6: on the concrete body with an empty nomber the
third clause applies and yields the taskId. -/
theorem claim_C6_witness :
    get_task_number_from_webhook c6Body = pyGet c6Body "taskId".toList :=
  ((claim_C6_task_number_precedence c6Body).2.2.1) rfl rfl rfl

/-! ## Persistent store (bot/database.py)

Rows of the four tables, restricted to the columns the verified handlers
read or write.  Timestamps are abstract Nat instants; the tasks list is kept
most-recent-first, so the reconciliation query ORDER BY created_at DESC is
the list order itself. -/

structure TaskRow where
  task_id : Nat
  nomber : Option (List Char)
  assigned_guest_id : Option Nat
  assignment_chat_id : Option Nat
  assignment_message_id : Option Nat
  deriving Repr, DecidableEq

structure InvitationRow where
  task_id : Nat
  guest_planfix_id : Nat
  telegram_id : Nat
  chat_id : Nat
  message_id : Nat
  withdrawn_at : Option Nat
  deriving Repr, DecidableEq

structure GuestMapRow where
  planfix_contact_id : Nat
  telegram_id : Nat
  deriving Repr, DecidableEq

structure FormSessionRow where
  session_id : List Char
  task_id : Nat
  guest_planfix_id : Nat
  completed_at : Option Nat
  score : Option Int
  summary : List Char
  payload : List Char
  deriving Repr, DecidableEq

structure Store where
  tasks : List TaskRow
  invitations : List InvitationRow
  guest_map : List GuestMapRow
  form_sessions : List FormSessionRow
  deriving Repr, DecidableEq

/-- Decimal rendering of an integer id, standing for Python str(n). -/
def natStr (n : Nat) : List Char :=
  (Nat.repr n).toList

/-- SELECT planfix_contact_id FROM guest_telegram_map WHERE telegram_id = ?. -/
def Store.guestByTelegram (st : Store) (tg : Nat) : Option GuestMapRow :=
  st.guest_map.find? (fun r => r.telegram_id == tg)

/-- SELECT telegram_id FROM guest_telegram_map WHERE planfix_contact_id = ?. -/
def Store.guestByContact (st : Store) (cid : Nat) : Option GuestMapRow :=
  st.guest_map.find? (fun r => r.planfix_contact_id == cid)

/-- SELECT ... FROM tasks WHERE task_id = ?. -/
def Store.taskById (st : Store) (tid : Nat) : Option TaskRow :=
  st.tasks.find? (fun r => r.task_id == tid)

/-- Embedding of webhook_server.get_task_nomber_from_db plus the callers'
fallback: that helper reads the column by indexing inside try/except, so it
is total — it returns the stored task number when the row exists with a
truthy (non-empty) nomber, else the caller falls back to str(task_id). -/
def taskNomberOf (st : Store) (taskId : Nat) : List Char :=
  match st.taskById taskId with
  | some row =>
      match row.nomber with
      | some nb => if nb.isEmpty then natStr taskId else nb
      | none => natStr taskId
  | none => natStr taskId

/-- The nomber lookup of bot/handlers/invitations.py (the accept handler
and the decline handler's comment block): the source evaluates
task_row.get("nomber"), but the rows produced by Database.fetch_one are
sqlite3.Row values, which have no get method.  Whenever the task row exists
(it is truthy — Row supports len), the lookup raises AttributeError, here
none; only when the row is absent does the short-circuit skip the call and
fall back to str(task_id). -/
def invitationsTaskNomber (st : Store) (taskId : Nat) : Option (List Char) :=
  match st.taskById taskId with
  | some _ => none
  | none => some (natStr taskId)

/-- UPDATE tasks SET assigned_guest_id = ? WHERE task_id = ?. -/
def Store.setAssignedGuest (st : Store) (tid g : Nat) : Store :=
  { st with
    tasks := st.tasks.map (fun r =>
      if r.task_id == tid then { r with assigned_guest_id := some g } else r) }

/-- UPDATE invitations SET withdrawn_at = now
WHERE task_id = ? AND chat_id = ? AND message_id = ? (accept path). -/
def Store.withdrawByChat (st : Store) (now tid chatId msgId : Nat) : Store :=
  { st with
    invitations := st.invitations.map (fun r =>
      if r.task_id == tid && r.chat_id == chatId && r.message_id == msgId then
        { r with withdrawn_at := some now }
      else r) }

/-- UPDATE invitations SET withdrawn_at = now
WHERE task_id = ? AND telegram_id = ? AND message_id = ? (decline path; note
the source has no withdrawn_at IS NULL condition here). -/
def Store.withdrawByTelegram (st : Store) (now tid tg msgId : Nat) : Store :=
  { st with
    invitations := st.invitations.map (fun r =>
      if r.task_id == tid && r.telegram_id == tg && r.message_id == msgId then
        { r with withdrawn_at := some now }
      else r) }

/-- SELECT chat_id, message_id FROM invitations WHERE task_id = ? AND
withdrawn_at IS NULL AND NOT (chat_id = ? AND message_id = ?). -/
def Store.activeOtherInvitations (st : Store) (tid chatId msgId : Nat) :
    List InvitationRow :=
  st.invitations.filter (fun r =>
    r.task_id == tid && r.withdrawn_at == none &&
      !(r.chat_id == chatId && r.message_id == msgId))

/-- The bulk UPDATE of withdraw_all_invitations: everything active for the
task except the accepted chat message. -/
def Store.withdrawAllExcept (st : Store) (now tid chatId msgId : Nat) : Store :=
  { st with
    invitations := st.invitations.map (fun r =>
      if r.task_id == tid && r.withdrawn_at == none &&
          !(r.chat_id == chatId && r.message_id == msgId) then
        { r with withdrawn_at := some now }
      else r) }

/-- SELECT COUNT(*) FROM invitations WHERE task_id = ? AND withdrawn_at IS NULL. -/
def Store.activeInvitationCount (st : Store) (tid : Nat) : Nat :=
  (st.invitations.filter (fun r =>
    r.task_id == tid && r.withdrawn_at == none)).length

/-- SELECT completed_at FROM form_sessions WHERE session_id = ?. -/
def Store.sessionById (st : Store) (sid : List Char) : Option FormSessionRow :=
  st.form_sessions.find? (fun r => r.session_id == sid)

/-- SELECT ... FROM form_sessions WHERE task_id = ? AND completed_at IS NOT
NULL LIMIT 1. -/
def Store.completedSessionForTask (st : Store) (tid : Nat) :
    Option FormSessionRow :=
  st.form_sessions.find? (fun r =>
    r.task_id == tid && !(r.completed_at == none))

/-- UPDATE form_sessions SET completed_at, score, summary, payload
WHERE session_id = ?. -/
def Store.completeSession (st : Store) (sid : List Char) (now : Nat)
    (score : Option Int) (summary payload : List Char) : Store :=
  { st with
    form_sessions := st.form_sessions.map (fun r =>
      if r.session_id == sid then
        { r with completed_at := some now, score := score,
                 summary := summary, payload := payload }
      else r) }

/-! ## Side effects emitted by the handlers -/

/-- Kinds of CRM audit comments, standing for the literal Russian texts. -/
inductive CommentKind
  | acceptedExecutor
  | allDeclined
  | deadlineExpired
  | formReceived
  deriving Repr, DecidableEq

/-- Kinds of outbound chat messages, standing for the literal texts. -/
inductive ChatMsg
  | notRegistered
  | alreadyAssigned
  | assignFailedRetry
  | surveyPrompt
  | reservedPending
  | declineThanks
  | allDeclinedAdmin
  | deadlineExpiredAdmin
  deriving Repr, DecidableEq

/-- Externally visible actions a handler performs, in order: CRM calls as
attempted (their success or failure is injected separately) and chat
operations. -/
inductive Effect
  | crmGetTask (nomber : List Char)
  | crmSetExecutors (nomber : List Char) (contacts : List Nat)
  | crmAddComment (nomber : List Char) (comment : CommentKind)
  | crmUpdateStatus (nomber : List Char) (statusId : Nat)
  | crmUploadFileFromUrl (nomber : List Char) (url : List Char)
  | sendMessage (chatId : Nat) (msg : ChatMsg)
  | deleteMessage (chatId msgId : Nat)
  deriving Repr, DecidableEq

/-! ## Invitation accept handler (bot/handlers/invitations.py) -/

/-- How one run of handle_accept ends, one constructor per return path.
attributeError is the unhandled AttributeError the nomber lookup raises
whenever the task row exists (sqlite3.Row has no get method): the handler
aborts there, before the lock, the CRM calls and every store write. -/
inductive AcceptOutcome
  | notRegistered
  | attributeError
  | tooLate
  | retryableFailure
  | assignedOk
  | reservedPendingSync
  deriving Repr, DecidableEq

/-- Injected CRM responses for the calls an accept run can make.  The
per-task asyncio lock serializes accept runs for one task, so a run sees
fixed responses for its critical section. -/
structure AcceptCrm where
  getTask : Except PlanfixError (List (List Char))
  setExecutors : Except PlanfixError Unit
  addComment : Except PlanfixError Unit

/-- Result of one accept run: the new store, the emitted effects in order,
and the outcome. -/
structure AcceptResult where
  store : Store
  effects : List Effect
  outcome : AcceptOutcome
  deriving Repr, DecidableEq

/-- The part of handle_accept after the already-assigned check: attempt
set_task_executors; on success add a best-effort comment, persist the
assignment, send the survey prompt and withdraw the competing invitations;
on a NotFound error persist the assignment anyway and tell the guest the
slot is reserved pending sync; on any other error tell the guest to retry,
record the assignment attempt in the task row and return. -/
def acceptAssign (crm : AcceptCrm) (st : Store)
    (now chatId msgId taskId g : Nat) (nomber : List Char)
    (effs0 : List Effect) : AcceptResult :=
  match crm.setExecutors with
  | .ok _ =>
      let st1 := st.setAssignedGuest taskId g
      let others := st1.activeOtherInvitations taskId chatId msgId
      let st2 := st1.withdrawAllExcept now taskId chatId msgId
      { store := st2,
        effects := effs0 ++
          [.crmSetExecutors nomber [g], .crmAddComment nomber .acceptedExecutor,
           .crmGetTask nomber, .sendMessage chatId .surveyPrompt] ++
          others.map (fun r => .deleteMessage r.chat_id r.message_id),
        outcome := .assignedOk }
  | .error e =>
      if e.is_task_not_found then
        let st1 := st.setAssignedGuest taskId g
        let others := st1.activeOtherInvitations taskId chatId msgId
        let st2 := st1.withdrawAllExcept now taskId chatId msgId
        { store := st2,
          effects := effs0 ++
            [.crmSetExecutors nomber [g], .sendMessage chatId .reservedPending] ++
            others.map (fun r => .deleteMessage r.chat_id r.message_id),
          outcome := .reservedPendingSync }
      else
        { store := st.setAssignedGuest taskId g,
          effects := effs0 ++
            [.crmSetExecutors nomber [g], .sendMessage chatId .assignFailedRetry],
          outcome := .retryableFailure }

/-- Embedding of handle_accept.  The callback parsing and missing-client
guard are outside the model; the per-task lock makes the body atomic with
respect to other accepts of the same task, which is why a run is a plain
function of the store.  After the guest-mapping lookup comes the nomber
lookup: when the task row exists, task_row.get raises an unguarded
AttributeError (sqlite3.Row has no get), so the handler aborts before the
lock, the CRM calls and every store write; the rest of the flow is only
reached with the row absent, under the str(task_id) fallback.  In the
successful branch the extra crmGetTask effect is the get_task call
generate_webapp_url performs to pick the form variant; the two success
texts (web-app button or plain instructions) are collapsed into one
surveyPrompt message kind. -/
def handle_accept (crm : AcceptCrm) (st : Store)
    (now tgUser chatId msgId taskId : Nat) : AcceptResult :=
  match st.guestByTelegram tgUser with
  | none =>
      { store := st, effects := [.sendMessage chatId .notRegistered],
        outcome := .notRegistered }
  | some gm =>
      let g := gm.planfix_contact_id
      match invitationsTaskNomber st taskId with
      | none =>
          { store := st, effects := [], outcome := .attributeError }
      | some nomber =>
          match crm.getTask with
          | .ok users =>
              if !users.isEmpty then
                { store := st.withdrawByChat now taskId chatId msgId,
                  effects := [.crmGetTask nomber, .sendMessage chatId .alreadyAssigned],
                  outcome := .tooLate }
              else
                acceptAssign crm st now chatId msgId taskId g nomber [.crmGetTask nomber]
          | .error _ =>
              acceptAssign crm st now chatId msgId taskId g nomber [.crmGetTask nomber]

/-- CRM-side view of the one task in play: its assignee user ids as the CRM
read path reports them. -/
structure CrmTaskState where
  users : List (List Char)
  deriving Repr, DecidableEq

/-- Assignee id encoding produced by set_task_executors: contact:id. -/
def contactRef (cid : Nat) : List Char :=
  "contact:".toList ++ natStr cid

/-- Semantics of the successful CRM calls on the CRM task state: a
successful set_task_executors replaces the assignee list with the given
contacts. -/
def applyCrmEffects (crm : CrmTaskState) (effs : List Effect) : CrmTaskState :=
  effs.foldl
    (fun c e =>
      match e with
      | .crmSetExecutors _ gs => ⟨gs.map contactRef⟩
      | _ => c)
    crm

/-- An accept run against a healthy CRM: the read path reports the current
CRM assignees, the write path succeeds and is applied to the CRM state. -/
def acceptHealthy (crm : CrmTaskState) (st : Store)
    (now tgUser chatId msgId taskId : Nat) : CrmTaskState × AcceptResult :=
  let r := handle_accept ⟨.ok crm.users, .ok (), .ok ()⟩ st now tgUser chatId msgId taskId
  (applyCrmEffects crm r.effects, r)

/-! ## Invitation decline handler (bot/handlers/invitations.py) -/

/-- Embedding of handle_decline: withdraw the clicked invitation, thank the
guest, delete the invitation message, and, when the task is left with zero
active invitations and both the CRM client and the admin chat are
configured, notify the admin and then fetch the nomber for the all-declined
audit comment.  That fetch is the invitations.py Row.get lookup: when the
task row exists it raises AttributeError, which the surrounding except
swallows after the admin message has already gone out, so the comment is
skipped; only with the row absent is the comment posted, under the
str(task_id) fallback. -/
def handle_decline (clientAvailable : Bool) (adminChatId : Option Nat)
    (st : Store) (now tgUser chatId msgId taskId : Nat) :
    Store × List Effect :=
  let st1 := st.withdrawByTelegram now taskId tgUser msgId
  let effs0 : List Effect :=
    [.sendMessage chatId .declineThanks, .deleteMessage chatId msgId]
  if st1.activeInvitationCount taskId == 0 then
    match clientAvailable, adminChatId with
    | true, some a =>
        match invitationsTaskNomber st1 taskId with
        | none =>
            (st1, effs0 ++ [.sendMessage a .allDeclinedAdmin])
        | some nomber =>
            (st1, effs0 ++
              [.sendMessage a .allDeclinedAdmin, .crmAddComment nomber .allDeclined])
    | _, _ => (st1, effs0)
  else
    (st1, effs0)

/-! ## Reconciliation job (bot/scheduler.py, retry_executor_assignments) -/

/-- Injected CRM responses for the reconciliation job, per task nomber. -/
structure RetryCrm where
  getTask : List Char → Except PlanfixError (List (List Char))
  setExecutors : List Char → Except PlanfixError Unit
  addComment : List Char → Except PlanfixError Unit

/-- The assignee matching of retry_executor_assignments: a CRM user id in
any of the observed encodings (suffix :id, bare id, contact:id) counts as
the guest already being assigned. -/
def assigneeMatches (g : Nat) (userId : List Char) : Bool :=
  (':' :: natStr g).isSuffixOf userId || userId == natStr g ||
    userId == contactRef g

/-- One row of the reconciliation loop: read the CRM assignees for the
task's nomber (with the str(task_id) fallback); skip when the guest is
already among them; otherwise re-attempt set_task_executors and, on
success, the best-effort audit comment.  Right after the comment the job
reads settings.status_waiting_visit_id, an attribute the Settings class
does not declare, so an AttributeError ends the row's processing there (the
per-row except swallows it); the status transitions and the guest
notification that follow in the source are therefore unreachable and the
store is never mutated. -/
def retryRow (crm : RetryCrm) (row : TaskRow) : List Effect :=
  let nomber :=
    match row.nomber with
    | some nb => if nb.isEmpty then natStr row.task_id else nb
    | none => natStr row.task_id
  match row.assigned_guest_id with
  | none => []
  | some g =>
      match crm.getTask nomber with
      | .error _ => [.crmGetTask nomber]
      | .ok users =>
          if users.any (assigneeMatches g) then
            [.crmGetTask nomber]
          else
            match crm.setExecutors nomber with
            | .error _ => [.crmGetTask nomber, .crmSetExecutors nomber [g]]
            | .ok _ =>
                [.crmGetTask nomber, .crmSetExecutors nomber [g],
                 .crmAddComment nomber .acceptedExecutor]

/-- Embedding of retry_executor_assignments: the tasks recorded as locally
assigned, most-recent-first (the list order of the store), bounded to 50,
each processed independently. -/
def retry_executor_assignments (crm : RetryCrm) (st : Store) : List Effect :=
  ((st.tasks.filter (fun r => !(r.assigned_guest_id == none))).take 50).flatMap
    (retryRow crm)

/-! ## Form submission handler (bot/webhook_server.py) -/

/-- Embedding of handle_form_submission.  The idempotency guard returns
immediately when the session row already has a completion timestamp.
Otherwise the session row is completed and the attachment uploads run;
directly after them the handler reads settings.status_form_received_id,
an attribute the Settings class does not declare, so an AttributeError
aborts the rest (task update, comment, chat notifications) and surfaces to
the webhook endpoint's generic handler. -/
def handle_form_submission (st : Store) (now : Nat) (sid : List Char)
    (taskId : Nat) (score : Option Int) (summary payload : List Char)
    (attachments : List (List Char)) : Store × List Effect :=
  let alreadyDone :=
    match st.sessionById sid with
    | some row => !(row.completed_at == none)
    | none => false
  if alreadyDone then
    (st, [])
  else
    let st1 := st.completeSession sid now score summary payload
    let nomber := taskNomberOf st taskId
    (st1, attachments.map (fun url => .crmUploadFileFromUrl nomber url))

/-! ## Deadline job and scheduler (bot/scheduler.py) -/

/-- Injected CRM responses for one deadline-expiry job run. -/
structure DeadlineCrm where
  updateStatus : Except PlanfixError Unit
  addComment : Except PlanfixError Unit

/-- Embedding of check_task_deadline: when the task already has a completed
form session, nothing happens; otherwise, when a cancelled status id is
configured, the CRM task status is set (by task_id, as in the source), the
audit comment appended, and the admin channel notified when configured and
the bot handle is available.  The whole CRM sequence sits in one try block,
so a failing update skips the comment and notification, and a failing
comment skips the notification. -/
def check_task_deadline (crm : DeadlineCrm) (statusCancelledId : Option Nat)
    (adminChatId : Option Nat) (botAvailable : Bool) (st : Store)
    (taskId : Nat) : List Effect :=
  match st.completedSessionForTask taskId with
  | some _ => []
  | none =>
      match statusCancelledId with
      | none => []
      | some c =>
          match crm.updateStatus with
          | .error _ => [.crmUpdateStatus (natStr taskId) c]
          | .ok _ =>
              match crm.addComment with
              | .error _ =>
                  [.crmUpdateStatus (natStr taskId) c,
                   .crmAddComment (natStr taskId) .deadlineExpired]
              | .ok _ =>
                  match adminChatId, botAvailable with
                  | some a, true =>
                      [.crmUpdateStatus (natStr taskId) c,
                       .crmAddComment (natStr taskId) .deadlineExpired,
                       .sendMessage a .deadlineExpiredAdmin]
                  | _, _ =>
                      [.crmUpdateStatus (natStr taskId) c,
                       .crmAddComment (natStr taskId) .deadlineExpired]

/-- One pending APScheduler job: its string id, run date and task. -/
structure SchedJob where
  id : List Char
  runDate : Nat
  taskId : Nat
  deriving Repr, DecidableEq

/-- scheduler.add_job with replace_existing=True: any pending job with the
same id is dropped before the new one is added. -/
def add_job (jobs : List SchedJob) (jobId : List Char) (runDate taskId : Nat)
    (replaceExisting : Bool) : List SchedJob :=
  if replaceExisting then
    jobs.filter (fun j => !(j.id == jobId)) ++ [⟨jobId, runDate, taskId⟩]
  else
    jobs ++ [⟨jobId, runDate, taskId⟩]

/-- The deadline job key: "deadline_" followed by the task id. -/
def deadlineJobId (taskId : Nat) : List Char :=
  "deadline_".toList ++ natStr taskId

/-- Embedding of schedule_deadline_check: the deadline string is parsed by
the datetime library (tried as ISO, DD-MM-YYYY, then DD.MM.YYYY); that
external parse is abstracted as an Option instant.  A parse failure is
logged and schedules nothing; otherwise the job is added under the
per-task deadline key with replace_existing=True. -/
def schedule_deadline_check (jobs : List SchedJob) (taskId : Nat)
    (parsedDeadline : Option Nat) : List SchedJob :=
  match parsedDeadline with
  | none => jobs
  | some d => add_job jobs (deadlineJobId taskId) d taskId true

/-- The pending deadline jobs a task has. -/
def deadlineJobsFor (jobs : List SchedJob) (taskId : Nat) : List SchedJob :=
  jobs.filter (fun j => j.id == deadlineJobId taskId)

/-! ## Claims about the handlers -/

/-- Claim C3: a form-completion callback for a session whose completed_at is
already set is a no-op: the handler returns immediately, the store (hence
the session's completion timestamp, score and summary) is unchanged and no
CRM mutation is performed. -/
theorem claim_C3_form_submission_idempotent :
    ∀ (st : Store) (now : Nat) (sid : List Char) (taskId : Nat)
      (score : Option Int) (summary payload : List Char)
      (attachments : List (List Char)) (row : FormSessionRow) (t : Nat),
      st.sessionById sid = some row → row.completed_at = some t →
      handle_form_submission st now sid taskId score summary payload attachments =
        (st, []) := by
  intro st now sid taskId score summary payload atts row t hrow hc
  simp [handle_form_submission, hrow, hc]

/-- A store holding one already-completed form session. -/
def c3Store : Store :=
  ⟨[], [], [], [⟨"sess1".toList, 1, 427, some 50, some 9, "ok".toList, "{}".toList⟩]⟩

/-- Witness for claim C3: a second submission for the completed session of
c3Store changes nothing and emits nothing. -/
theorem claim_C3_witness :
    handle_form_submission c3Store 99 "sess1".toList 1 (some 5) [] [] ["u".toList] =
      (c3Store, []) :=
  claim_C3_form_submission_idempotent c3Store 99 "sess1".toList 1 (some 5) [] []
    ["u".toList] ⟨"sess1".toList, 1, 427, some 50, some 9, "ok".toList, "{}".toList⟩ 50
    rfl rfl

/-- Claim C7: the deadline-expiry job does nothing when the task already has
a completed form session, and otherwise (with the cancelled status
configured, the CRM calls succeeding, and the admin channel available) sets
the cancelled status, appends the audit comment and notifies the admin; and
scheduling a deadline check replaces any previously pending deadline job of
the same task, leaving exactly one, while a deadline that fails to parse
schedules nothing. -/
theorem claim_C7_deadline_job :
    (∀ (crm : DeadlineCrm) (cancelId adminId : Option Nat) (botAv : Bool)
       (st : Store) (taskId : Nat) (s : FormSessionRow),
       st.completedSessionForTask taskId = some s →
       check_task_deadline crm cancelId adminId botAv st taskId = []) ∧
    (∀ (crm : DeadlineCrm) (c a : Nat) (st : Store) (taskId : Nat),
       crm.updateStatus = .ok () → crm.addComment = .ok () →
       st.completedSessionForTask taskId = none →
       check_task_deadline crm (some c) (some a) true st taskId =
         [.crmUpdateStatus (natStr taskId) c,
          .crmAddComment (natStr taskId) .deadlineExpired,
          .sendMessage a .deadlineExpiredAdmin]) ∧
    (∀ (jobs : List SchedJob) (taskId d : Nat),
       deadlineJobsFor (schedule_deadline_check jobs taskId (some d)) taskId =
         [⟨deadlineJobId taskId, d, taskId⟩]) ∧
    (∀ (jobs : List SchedJob) (taskId : Nat),
       schedule_deadline_check jobs taskId none = jobs) := by
  refine ⟨?_, ?_, ?_, ?_⟩
  · intro crm cancelId adminId botAv st taskId s hs
    simp [check_task_deadline, hs]
  · intro crm c a st taskId hu hc hnone
    simp [check_task_deadline, hnone, hu, hc]
  · intro jobs taskId d
    unfold deadlineJobsFor schedule_deadline_check add_job
    dsimp only
    rw [if_pos rfl]
    rw [List.filter_append]
    have h1 : ((jobs.filter (fun j => !(j.id == deadlineJobId taskId))).filter
        (fun j => j.id == deadlineJobId taskId)) = [] := by
      rw [List.filter_filter]
      apply List.filter_eq_nil_iff.mpr
      intro a _
      cases h : (a.id == deadlineJobId taskId) <;> simp [h]
    rw [h1]
    simp
  · intro jobs taskId
    rfl

/-- Witness for claim C7: a run with everything configured on an empty
store cancels the task, comments and notifies. -/
theorem claim_C7_witness :
    check_task_deadline ⟨.ok (), .ok ()⟩ (some 116) (some 777) true
        (Store.mk [] [] [] []) 5 =
      [.crmUpdateStatus (natStr 5) 116,
       .crmAddComment (natStr 5) .deadlineExpired,
       .sendMessage 777 .deadlineExpiredAdmin] :=
  claim_C7_deadline_job.2.1 ⟨.ok (), .ok ()⟩ 116 777 (Store.mk [] [] [] []) 5
    rfl rfl rfl

/-- A store for the decline scenarios: one task with its nomber, a single
active invitation, and the inviting guest registered. -/
def c8Store : Store :=
  ⟨[⟨1, some "86190".toList, none, none, none⟩],
   [⟨1, 427, 555, 555, 9, none⟩], [⟨427, 555⟩], []⟩

/-- Claim C8 counterexample: declining the last active invitation of a task
whose row exists in the store produces the admin notification but no CRM
comment at all (the nomber lookup's Row.get AttributeError is swallowed
after the admin message, skipping add_task_comment), and a duplicate
decline callback produces a second admin notification, because the trigger
is the count of active invitations being zero, not the transition to
zero. -/
theorem claim_C8_counterexample :
    (handle_decline true (some 777) c8Store 100 555 555 9 1).2 =
      [.sendMessage 555 .declineThanks, .deleteMessage 555 9,
       .sendMessage 777 .allDeclinedAdmin] ∧
    (handle_decline true (some 777)
        (handle_decline true (some 777) c8Store 100 555 555 9 1).1
        101 555 555 9 1).2 =
      [.sendMessage 555 .declineThanks, .deleteMessage 555 9,
       .sendMessage 777 .allDeclinedAdmin] :=
  ⟨rfl, rfl⟩

/-- Claim C8 as amended: a decline callback that leaves the task with zero
active invitations (the admin channel and CRM client being available)
produces exactly one admin notification in that run; the all-declined CRM
comment is only posted when the task row is absent from the store (the
nomber lookup then falls back to str(task_id)) — when the row exists, the
Row.get AttributeError is swallowed and the comment is skipped.  A decline
that leaves active invitations produces neither, and duplicate callbacks
each re-trigger the notification, since the guard checks the count, not
the transition. -/
theorem claim_C8_decline_zero_active_notifies :
    ∀ (st : Store) (now tg chat msg tid a : Nat),
      ((st.withdrawByTelegram now tid tg msg).activeInvitationCount tid = 0 →
        (∀ row : TaskRow,
          (st.withdrawByTelegram now tid tg msg).taskById tid = some row →
          handle_decline true (some a) st now tg chat msg tid =
            (st.withdrawByTelegram now tid tg msg,
             [.sendMessage chat .declineThanks, .deleteMessage chat msg,
              .sendMessage a .allDeclinedAdmin])) ∧
        ((st.withdrawByTelegram now tid tg msg).taskById tid = none →
          handle_decline true (some a) st now tg chat msg tid =
            (st.withdrawByTelegram now tid tg msg,
             [.sendMessage chat .declineThanks, .deleteMessage chat msg,
              .sendMessage a .allDeclinedAdmin,
              .crmAddComment (natStr tid) .allDeclined]))) ∧
      ((st.withdrawByTelegram now tid tg msg).activeInvitationCount tid ≠ 0 →
        handle_decline true (some a) st now tg chat msg tid =
          (st.withdrawByTelegram now tid tg msg,
           [.sendMessage chat .declineThanks, .deleteMessage chat msg])) := by
  intro st now tg chat msg tid a
  constructor
  · intro h0
    constructor
    · intro row hrow
      simp [handle_decline, invitationsTaskNomber, h0, hrow]
    · intro hnone
      simp [handle_decline, invitationsTaskNomber, h0, hnone]
  · intro hne
    have hb : ((st.withdrawByTelegram now tid tg msg).activeInvitationCount tid
        == 0) = false := by
      simpa using hne
    simp [handle_decline, hb]

/-- Witness for claim C8: the single decline of c8Store's only invitation,
with the task row present, yields exactly the thank-you, the message
deletion and one admin notification — and no comment. -/
theorem claim_C8_witness :
    handle_decline true (some 777) c8Store 100 555 555 9 1 =
      (c8Store.withdrawByTelegram 100 1 555 9,
       [.sendMessage 555 .declineThanks, .deleteMessage 555 9,
        .sendMessage 777 .allDeclinedAdmin]) :=
  ((claim_C8_decline_zero_active_notifies c8Store 100 555 555 9 1 777).1 rfl).1
    ⟨1, some "86190".toList, none, none, none⟩ rfl

/-- Abbreviation for the get_task results that fall through to the
assignment attempt in handle_accept: an empty assignee list or any CRM
read error. -/
def reachesAssign : Except PlanfixError (List (List Char)) → Bool
  | .ok users => users.isEmpty
  | .error _ => true

/-- A store for the accept error scenarios: one unassigned task, one active
invitation, the guest registered. -/
def c5Store : Store :=
  ⟨[⟨1, some "86190".toList, none, none, none⟩],
   [⟨1, 427, 555, 555, 9, none⟩], [⟨427, 555⟩], []⟩

/-- A store like c5Store but with the task row absent: the only shape in
which the accept handler survives the nomber lookup and reaches the CRM
calls. -/
def c5AbsentStore : Store :=
  ⟨[], [⟨1, 427, 555, 555, 9, none⟩], [⟨427, 555⟩], []⟩

/-- An UPDATE of assigned_guest_id scoped to a task id with no matching row
changes nothing. -/
lemma setAssignedGuest_no_row (st : Store) (tid g : Nat)
    (h : st.taskById tid = none) : st.setAssignedGuest tid g = st := by
  rw [Store.taskById] at h
  have hall : ∀ r ∈ st.tasks, (r.task_id == tid) = false := by
    intro r hr
    have := List.find?_eq_none.mp h r hr
    simpa using this
  unfold Store.setAssignedGuest
  have hmap : st.tasks.map (fun r =>
      if r.task_id == tid then { r with assigned_guest_id := some g } else r) =
      st.tasks := by
    conv_rhs => rw [← List.map_id st.tasks]
    apply List.map_congr_left
    intro r hr
    simp [hall r hr]
  rw [hmap]

/-- Claim C5: whenever the accept flow reaches a failing non-NotFound
set_task_executors — which requires the task row to be absent, the only
path past the Row.get nomber lookup — the guest is notified of a retryable
failure and the flow aborts without mutating the Store: the error-branch
UPDATE of assigned_guest_id matches no row, so the store after equals the
store before.  When the task row exists, set_task_executors is never
reached at all (the handler aborts earlier with AttributeError and, again,
no store mutation). -/
theorem claim_C5_assign_error_aborts :
    ∀ (getRes : Except PlanfixError (List (List Char))) (e : PlanfixError)
      (commentRes : Except PlanfixError Unit) (st : Store)
      (now tg chat msg tid : Nat) (gm : GuestMapRow),
      st.guestByTelegram tg = some gm →
      reachesAssign getRes = true → e.is_task_not_found = false →
      (st.taskById tid = none →
        handle_accept ⟨getRes, .error e, commentRes⟩ st now tg chat msg tid =
          { store := st,
            effects := [.crmGetTask (natStr tid),
                        .crmSetExecutors (natStr tid) [gm.planfix_contact_id],
                        .sendMessage chat .assignFailedRetry],
            outcome := .retryableFailure }) ∧
      (∀ row : TaskRow, st.taskById tid = some row →
        handle_accept ⟨getRes, .error e, commentRes⟩ st now tg chat msg tid =
          { store := st, effects := [], outcome := .attributeError }) := by
  intro getRes e commentRes st now tg chat msg tid gm hgm hreach hnf
  constructor
  · intro hnone
    have hset := setAssignedGuest_no_row st tid gm.planfix_contact_id hnone
    cases getRes with
    | ok users =>
        have hu : users = [] := by
          simpa [reachesAssign] using hreach
        subst hu
        simp [handle_accept, invitationsTaskNomber, hgm, hnone, acceptAssign,
          hnf, hset]
    | error eg =>
        simp [handle_accept, invitationsTaskNomber, hgm, hnone, acceptAssign,
          hnf, hset]
  · intro row hrow
    cases getRes with
    | ok users =>
        simp [handle_accept, invitationsTaskNomber, hgm, hrow]
    | error eg =>
        simp [handle_accept, invitationsTaskNomber, hgm, hrow]

/-- Witness for claim C5 at the concrete failing accept of c5AbsentStore:
the guest is told to retry and the store is unchanged. -/
theorem claim_C5_witness :
    handle_accept ⟨.ok [], .error ⟨500, "boom".toList⟩, .ok ()⟩
        c5AbsentStore 100 555 555 9 1 =
      { store := c5AbsentStore,
        effects := [.crmGetTask (natStr 1), .crmSetExecutors (natStr 1) [427],
                    .sendMessage 555 .assignFailedRetry],
        outcome := .retryableFailure } :=
  (claim_C5_assign_error_aborts (.ok []) ⟨500, "boom".toList⟩ (.ok ())
    c5AbsentStore 100 555 555 9 1 ⟨427, 555⟩ rfl rfl rfl).1 rfl

/-- Claim C10 counterexample: the claim says an accept always attempts the
assignment whenever the CRM read path is unavailable; but at c5Store (task
row present — the normal case) the handler aborts on the Row.get
AttributeError before any CRM call, so no set_task_executors attempt is
made at all. -/
theorem claim_C10_counterexample :
    handle_accept ⟨.error ⟨503, "down".toList⟩, .ok (), .ok ()⟩
        c5Store 100 555 555 9 1 =
      { store := c5Store, effects := [], outcome := .attributeError } :=
  rfl

/-- Claim C10 as amended: provided the accept survives the nomber lookup —
the task row absent, so the str(task_id) fallback applies — a failing
pre-assignment CRM read is swallowed, the already-assigned branch is
skipped and set_task_executors is always attempted for the acting guest;
when the task row exists, the handler aborts with AttributeError before
any CRM call. -/
theorem claim_C10_get_error_skips_guard :
    ∀ (e : PlanfixError) (setRes commentRes : Except PlanfixError Unit)
      (st : Store) (now tg chat msg tid : Nat) (gm : GuestMapRow),
      st.guestByTelegram tg = some gm →
      (st.taskById tid = none →
        (handle_accept ⟨.error e, setRes, commentRes⟩ st now tg chat msg tid).outcome ≠
            .tooLate ∧
        Effect.crmSetExecutors (natStr tid) [gm.planfix_contact_id] ∈
          (handle_accept ⟨.error e, setRes, commentRes⟩ st now tg chat msg tid).effects) ∧
      (∀ row : TaskRow, st.taskById tid = some row →
        handle_accept ⟨.error e, setRes, commentRes⟩ st now tg chat msg tid =
          { store := st, effects := [], outcome := .attributeError }) := by
  intro e setRes commentRes st now tg chat msg tid gm hgm
  constructor
  · intro hnone
    cases setRes with
    | ok u =>
        constructor
        · simp [handle_accept, invitationsTaskNomber, hgm, hnone, acceptAssign]
        · simp [handle_accept, invitationsTaskNomber, hgm, hnone, acceptAssign]
    | error es =>
        by_cases hnf : es.is_task_not_found = true
        · constructor
          · simp [handle_accept, invitationsTaskNomber, hgm, hnone, acceptAssign, hnf]
          · simp [handle_accept, invitationsTaskNomber, hgm, hnone, acceptAssign, hnf]
        · rw [Bool.not_eq_true] at hnf
          constructor
          · simp [handle_accept, invitationsTaskNomber, hgm, hnone, acceptAssign, hnf]
          · simp [handle_accept, invitationsTaskNomber, hgm, hnone, acceptAssign, hnf]
  · intro row hrow
    simp [handle_accept, invitationsTaskNomber, hgm, hrow]

/-- Witness for claim C10: with the task row absent, a 503 on the CRM read
path still ends in an assignment attempt. -/
theorem claim_C10_witness :
    (handle_accept ⟨.error ⟨503, "down".toList⟩, .ok (), .ok ()⟩
        c5AbsentStore 100 555 555 9 1).outcome ≠ .tooLate ∧
    Effect.crmSetExecutors (natStr 1) [427] ∈
      (handle_accept ⟨.error ⟨503, "down".toList⟩, .ok (), .ok ()⟩
        c5AbsentStore 100 555 555 9 1).effects :=
  (claim_C10_get_error_skips_guard ⟨503, "down".toList⟩ (.ok ()) (.ok ())
    c5AbsentStore 100 555 555 9 1 ⟨427, 555⟩ rfl).1 rfl

/-- A store with one unassigned task and two invited, registered guests:
the normal state right after handle_task_created has persisted the task
and dispatched the invitations. -/
def invStore (tid g1 g2 tg1 tg2 chat1 chat2 m1 m2 : Nat) (nb : List Char) : Store :=
  { tasks := [⟨tid, some nb, none, none, none⟩],
    invitations := [⟨tid, g1, tg1, chat1, m1, none⟩, ⟨tid, g2, tg2, chat2, m2, none⟩],
    guest_map := [⟨g1, tg1⟩, ⟨g2, tg2⟩],
    form_sessions := [] }

/-- The same two-guest scenario with the task row absent: the only shape in
which the accept handler survives the nomber lookup. -/
def invStoreNoTask (tid g1 g2 tg1 tg2 chat1 chat2 m1 m2 : Nat) : Store :=
  { tasks := [],
    invitations := [⟨tid, g1, tg1, chat1, m1, none⟩, ⟨tid, g2, tg2, chat2, m2, none⟩],
    guest_map := [⟨g1, tg1⟩, ⟨g2, tg2⟩],
    form_sessions := [] }

/-- Two accept actions on the same task against a healthy CRM, in the
order the per-task lock serialized them: the result of each run, with the
CRM task state threaded through. -/
def c1Run (s0 : Store) (tg1 chat1 m1 now1 tg2 chat2 m2 now2 tid : Nat) :
    (CrmTaskState × AcceptResult) × (CrmTaskState × AcceptResult) :=
  let r1 := acceptHealthy ⟨[]⟩ s0 now1 tg1 chat1 m1 tid
  let r2 := acceptHealthy r1.1 r1.2.store now2 tg2 chat2 m2 tid
  (r1, r2)

/-- Claim C1 evaluation: in the normal state (task row persisted, as
handle_task_created leaves it — invStore) both concurrent accepts crash on
the Row.get AttributeError before the lock, the CRM calls and every store
write: neither guest is assigned, no one is told they were too late, and
no invitation is withdrawn, contrary to the claim.  The serialization the
claim describes is the code's evident intent: with the task row absent
(invStoreNoTask), the only shape that survives the nomber lookup, the
lock-serialized runs behave exactly as claimed — the first accept sets the
executor, the second observes the task as assigned, is told it was too
late, and has its invitation withdrawn, the CRM holding exactly one
assignee. -/
theorem claim_C1_single_assignment :
    (c1Run (invStore 1 427 428 555 556 555 556 9 10 "86190".toList)
        555 555 9 100 556 556 10 101 1).1.2.outcome = .attributeError ∧
    (c1Run (invStore 1 427 428 555 556 555 556 9 10 "86190".toList)
        555 555 9 100 556 556 10 101 1).2.2.outcome = .attributeError ∧
    (c1Run (invStore 1 427 428 555 556 555 556 9 10 "86190".toList)
        555 555 9 100 556 556 10 101 1).2.1.users = [] ∧
    (c1Run (invStore 1 427 428 555 556 555 556 9 10 "86190".toList)
        555 555 9 100 556 556 10 101 1).2.2.store =
      invStore 1 427 428 555 556 555 556 9 10 "86190".toList ∧
    (c1Run (invStoreNoTask 1 427 428 555 556 555 556 9 10)
        555 555 9 100 556 556 10 101 1).1.2.outcome = .assignedOk ∧
    (c1Run (invStoreNoTask 1 427 428 555 556 555 556 9 10)
        555 555 9 100 556 556 10 101 1).2.2.outcome = .tooLate ∧
    (c1Run (invStoreNoTask 1 427 428 555 556 555 556 9 10)
        555 555 9 100 556 556 10 101 1).2.1.users = [contactRef 427] ∧
    (c1Run (invStoreNoTask 1 427 428 555 556 555 556 9 10)
        555 555 9 100 556 556 10 101 1).2.2.store.invitations =
      [⟨1, 427, 555, 555, 9, none⟩, ⟨1, 428, 556, 556, 10, some 101⟩] :=
  ⟨rfl, rfl, rfl, rfl, rfl, rfl, rfl, rfl⟩

/-- A store with one unassigned task and a single invited, registered
guest. -/
def c2Store (tid g tg chat m : Nat) (nb : List Char) : Store :=
  ⟨[⟨tid, some nb, none, none, none⟩], [⟨tid, g, tg, chat, m, none⟩], [⟨g, tg⟩], []⟩

/-- Claim C2 evaluation: the claimed reserve-then-reconcile flow is
unreachable.  In the normal state (task row persisted — c2Store) the
accept crashes on the Row.get AttributeError before the lock: nothing is
persisted and the guest is not messaged, although the handler's own log
notes promise exactly the claimed behavior.  With the task row absent
(c5AbsentStore), the only path that reaches set_task_executors, the
NotFound is tolerated and the guest is told the slot is reserved — but the
UPDATE of assigned_guest_id matches no row, so the store is unchanged, no
task is recorded as locally assigned, and a subsequent
retry_executor_assignments run finds nothing to re-drive. -/
theorem claim_C2_notfound_reconciled :
    handle_accept ⟨.error ⟨400, "not found".toList⟩,
        .error ⟨400, "not found".toList⟩, .ok ()⟩
        (c2Store 1 427 555 555 9 "86190".toList) 100 555 555 9 1 =
      { store := c2Store 1 427 555 555 9 "86190".toList,
        effects := [], outcome := .attributeError } ∧
    handle_accept ⟨.error ⟨400, "not found".toList⟩,
        .error ⟨400, "not found".toList⟩, .ok ()⟩
        c5AbsentStore 100 555 555 9 1 =
      { store := c5AbsentStore,
        effects := [.crmGetTask (natStr 1), .crmSetExecutors (natStr 1) [427],
                    .sendMessage 555 .reservedPending],
        outcome := .reservedPendingSync } ∧
    retry_executor_assignments ⟨fun _ => .ok [], fun _ => .ok (), fun _ => .ok ()⟩
        c5AbsentStore = [] :=
  ⟨rfl, rfl, rfl⟩

end Mgreg
